import Mathlib

/-!
# Xilinx VDMA frame-buffer driver (`drivers/video/fbdev/xilinx_vdma_fb.c`)

A shallow embedding of the driver: the static video-mode table, the palette
register routine, the four bring-up stages, `probe` and `remove`.

* 32-bit unsigned C arithmetic is `Nat` arithmetic reduced by `u32` after every
  operation.
* The driver's collaborators (clock, timing generator, DMA engine, frame-buffer
  core) are not part of the driver.  Every call to one of them is appended to
  the `calls` log of the `World`, and whatever the collaborator answers is read
  from an `Env` record, so every combination of answers is covered by
  quantifying over `Env`.
* Log output (`dev_err`, `dev_dbg`, `pr_err`) is not recorded.
-/

namespace XilinxVdmaFb

/-! ## Machine arithmetic -/

/-- Reduction to an unsigned 32-bit value (`u32`, `uint32_t`, `unsigned int`). -/
def u32 (n : Nat) : Nat := n % 2 ^ 32

/-! ## Kernel constants that the driver uses but does not define -/

/-- Constants of the kernel headers the driver includes (`linux/errno.h`,
`asm/page.h`); they are parameters of the model. -/
structure Kernel where
  EINVAL : Nat
  ENOMEM : Nat
  PAGE_SIZE : Nat
deriving DecidableEq

/-- Modelled from the spec: `PAGE_ALIGN` is a kernel macro outside the driver; the spec
only says the region has size `align(width*height*bytesPerPixel)`.  It rounds its
32-bit argument up to the next multiple of the page size. -/
def PAGE_ALIGN (k : Kernel) (x : Nat) : Nat :=
  u32 (x + (k.PAGE_SIZE - 1)) / k.PAGE_SIZE * k.PAGE_SIZE

/-! ## The video-mode table -/

/-- One row of the mode table (`s_vtcParameter`).  The pixel clock is a C `double`; every
value in the table is a dyadic rational, kept here exactly. -/
structure s_vtcParameter where
  label : String
  width : Nat
  height : Nat
  hps : Nat
  hpe : Nat
  vps : Nat
  vpe : Nat
  hmax : Nat
  vmax : Nat
  freq : ℚ

/-- The static table `vtc_parameter[]`. -/
def vtc_parameter : List s_vtcParameter :=
  [ { label := "640x480@60Hz", width := 640, height := 480, hps := 656, hpe := 752,
      vps := 489, vpe := 491, hmax := 800, vmax := 525, freq := 25 },
    { label := "800x600@60Hz", width := 800, height := 600, hps := 840, hpe := 968,
      vps := 600, vpe := 604, hmax := 1056, vmax := 628, freq := 40 },
    { label := "1280x720@60Hz", width := 1280, height := 720, hps := 1390, hpe := 1430,
      vps := 724, vpe := 729, hmax := 1650, vmax := 750, freq := 297 / 4 },
    { label := "1280x1024@60Hz", width := 1280, height := 1024, hps := 1328, hpe := 1440,
      vps := 1024, vpe := 1027, hmax := 1688, vmax := 1065, freq := 108 },
    { label := "1920x1080@60Hz", width := 1920, height := 1080, hps := 2008, hpe := 2052,
      vps := 1083, vpe := 1088, hmax := 2200, vmax := 1125, freq := 297 / 2 } ]

def DYNCLK_RATE : Nat := 148500000

def BITS_PER_PIXEL : Nat := 32
def RED_SHIFT : Nat := 16
def GREEN_SHIFT : Nat := 8
def BLUE_SHIFT : Nat := 0

def PALETTE_ENTRIES_NO : Nat := 256

/-! ## Driver data -/

structure xilinx_vdma_fb_conf where
  resolution_height : Nat
  resolution_width : Nat
deriving DecidableEq

def xilinx_vdma_fb_default_conf : xilinx_vdma_fb_conf :=
  { resolution_height := 1080, resolution_width := 1920 }

/-- Timing-generator configuration (`struct xvtc_config`, `media/xilinx-vtc.h`). -/
structure xvtc_config where
  hblank_start : Nat
  hsync_start : Nat
  hsync_end : Nat
  hsize : Nat
  vblank_start : Nat
  vsync_start : Nat
  vsync_end : Nat
  vsize : Nat
deriving DecidableEq

/-- The fields of `struct xilinx_vdma_config` that the driver sets; the rest is zeroed
by `memset`. -/
structure xilinx_vdma_config where
  coalesc : Nat
  park : Nat
  park_frm : Nat
  delay : Nat
deriving DecidableEq

inductive fb_type where
  | FB_TYPE_PACKED_PIXELS
deriving DecidableEq

inductive fb_visual where
  | FB_VISUAL_MONO01
  | FB_VISUAL_TRUECOLOR
deriving DecidableEq

inductive fb_accel where
  | FB_ACCEL_NONE
deriving DecidableEq

structure fb_bitfield where
  offset : Nat
  length : Nat
  msb_right : Nat
deriving DecidableEq

structure fb_fix_screeninfo where
  id : String
  smem_start : Nat
  smem_len : Nat
  type : fb_type
  visual : fb_visual
  line_length : Nat
  accel : fb_accel
deriving DecidableEq

structure fb_var_screeninfo where
  xres : Nat
  yres : Nat
  xres_virtual : Nat
  yres_virtual : Nat
  bits_per_pixel : Nat
  grayscale : Nat
  red : fb_bitfield
  green : fb_bitfield
  blue : fb_bitfield
  transp : fb_bitfield
  height : Nat
  width : Nat
deriving DecidableEq

/-- The constant `xilinx_vdma_fb_fix`. -/
def xilinx_vdma_fb_fix : fb_fix_screeninfo :=
  { id := "Xilinx VDMA", smem_start := 0, smem_len := 0,
    type := .FB_TYPE_PACKED_PIXELS, visual := .FB_VISUAL_TRUECOLOR,
    line_length := 0, accel := .FB_ACCEL_NONE }

/-- The constant `xilinx_fb_var`. -/
def xilinx_fb_var : fb_var_screeninfo :=
  { xres := 0, yres := 0, xres_virtual := 0, yres_virtual := 0,
    bits_per_pixel := BITS_PER_PIXEL, grayscale := 0,
    red := ⟨RED_SHIFT, 8, 0⟩, green := ⟨GREEN_SHIFT, 8, 0⟩, blue := ⟨BLUE_SHIFT, 8, 0⟩,
    transp := ⟨0, 0, 0⟩, height := 0, width := 0 }

/-- Where `info.pseudo_palette` points. -/
inductive palette_ptr where
  | null
  | drvdata_pseudo_palette
deriving DecidableEq

/-- The fields of `struct fb_info` the driver touches. -/
structure fb_info where
  screen_buffer : Option Nat
  fix : fb_fix_screeninfo
  var : fb_var_screeninfo
  pseudo_palette : palette_ptr
  fbops_set : Bool
deriving DecidableEq

/-- Declared number of elements of `drvdata.pseudo_palette` (`uint32_t pseudo_palette[16]`). -/
def PSEUDO_PALETTE_LEN : Nat := 16

/-- Driver data (`struct xilinx_vdma_fb_drvdata`).  Handles are opaque numbers; `none` is a
NULL pointer (for `dyn_clk` and `vtc_device`: an `ERR_PTR` value or not yet set).  The words
of the array `pseudo_palette` are not a field here: they are the `PaletteMem` that
`xilinx_vdma_fb_setcolreg` works on, and `info.pseudo_palette` records that the pointer
has been bound to the array. -/
structure xilinx_vdma_fb_drvdata where
  info : fb_info
  mm2s_dma_chan : Option Nat
  vdma_config : xilinx_vdma_config
  fb_virtual : Option Nat
  fb_phy : Nat
  fb_conf : xilinx_vdma_fb_conf
  dyn_clk : Option Nat
  vtc_config : xvtc_config
  vtc_device : Option Nat
deriving DecidableEq

/-- The all-zero driver data `devm_kzalloc` returns. -/
def drvdata_zero : xilinx_vdma_fb_drvdata :=
  { info := { screen_buffer := none,
              fix := { id := "", smem_start := 0, smem_len := 0,
                       type := .FB_TYPE_PACKED_PIXELS, visual := .FB_VISUAL_MONO01,
                       line_length := 0, accel := .FB_ACCEL_NONE },
              var := { xres := 0, yres := 0, xres_virtual := 0, yres_virtual := 0,
                       bits_per_pixel := 0, grayscale := 0, red := ⟨0, 0, 0⟩,
                       green := ⟨0, 0, 0⟩, blue := ⟨0, 0, 0⟩, transp := ⟨0, 0, 0⟩,
                       height := 0, width := 0 },
              pseudo_palette := .null, fbops_set := false },
    mm2s_dma_chan := none, vdma_config := ⟨0, 0, 0, 0⟩, fb_virtual := none, fb_phy := 0,
    fb_conf := ⟨0, 0⟩, dyn_clk := none, vtc_config := ⟨0, 0, 0, 0, 0, 0, 0, 0⟩,
    vtc_device := none }

inductive dma_transfer_direction where
  | DMA_MEM_TO_MEM
  | DMA_MEM_TO_DEV
deriving DecidableEq

/-- The static template `dma_tmplt` (`struct dma_interleaved_template`) with its one
data chunk `sgl[0]`. -/
structure dma_interleaved_template where
  src_start : Nat
  dst_start : Nat
  dir : dma_transfer_direction
  numf : Nat
  src_sgl : Nat
  src_inc : Nat
  dst_inc : Nat
  dst_sgl : Nat
  sgl0_size : Nat
  sgl0_icg : Nat
  frame_size : Nat
deriving DecidableEq

def dma_tmplt_zero : dma_interleaved_template :=
  { src_start := 0, dst_start := 0, dir := .DMA_MEM_TO_MEM, numf := 0, src_sgl := 0, src_inc := 0,
    dst_inc := 0, dst_sgl := 0, sgl0_size := 0, sgl0_icg := 0, frame_size := 0 }

/-! ## Collaborators -/

/-- What a driver function hands back: a C return value, or a kernel oops (a NULL pointer
was dereferenced and the function never returns). -/
inductive Outcome where
  | ret (v : Int)
  | oops
deriving DecidableEq

/-- One call from the driver into a collaborator, with the arguments that matter.  The
interfaces are those the driver includes: clock provider, timing generator
(`media/xilinx-vtc.h`), DMA engine, coherent allocator and frame-buffer core.
`clk_disable_unprepare`, `xvtc_generator_stop` and `xvtc_put` are the release
operations of those interfaces. -/
inductive Call where
  | devm_kzalloc
  | platform_set_drvdata
  | devm_clk_get
  | clk_prepare_enable (clk : Nat)
  | clk_get_rate (clk : Nat)
  | clk_round_rate (clk : Nat) (rate : Nat)
  | clk_set_rate (clk : Nat) (rate : Nat)
  | clk_disable_unprepare (clk : Nat)
  | xvtc_of_get
  | xvtc_generator_start (xvtc : Nat) (config : xvtc_config)
  | xvtc_generator_stop (xvtc : Nat)
  | xvtc_put (xvtc : Nat)
  | dma_request_slave_channel
  | xilinx_vdma_channel_set_config (chan : Nat) (cfg : xilinx_vdma_config)
  | dma_alloc_coherent (size : Nat)
  | memset_io (addr : Nat) (value : Nat) (size : Nat)
  | dmaengine_terminate_all (chan : Nat)
  | dmaengine_prep_interleaved_dma (chan : Nat) (xt : dma_interleaved_template)
  | dmaengine_submit (txd : Option Nat)
  | dma_async_issue_pending (chan : Nat)
  | dma_free_coherent (size : Nat) (cpu_addr : Option Nat) (dma_handle : Nat)
  | dma_release_channel (chan : Option Nat)
  | fb_alloc_cmap (len : Nat) (transp : Nat)
  | fb_dealloc_cmap
  | register_framebuffer
  | unregister_framebuffer
deriving DecidableEq

/-- The answers of the collaborators during one run.  Pointers are `Option`: `none` is NULL
(an `ERR_PTR` for `devm_clk_get` and `xvtc_of_get`).  `vdma_init` and `framebuffer_init`
end without a `return` statement on their success path, so the value their caller reads
is indeterminate: it is taken from `vdma_init_noreturn` and `framebuffer_init_noreturn`. -/
structure Env where
  k : Kernel
  devm_kzalloc : Bool
  devm_clk_get : Option Nat
  clk_prepare_enable : Int
  clk_get_rate : Nat
  clk_round_rate : Nat
  clk_set_rate : Int
  xvtc_of_get : Option Nat
  dma_request_slave_channel : Option Nat
  xilinx_vdma_channel_set_config : Int
  dma_alloc_coherent : Option (Nat × Nat)
  dmaengine_prep_interleaved_dma : Option Nat
  dmaengine_submit : Int
  fb_alloc_cmap : Int
  register_framebuffer : Int
  vdma_init_noreturn : Int
  framebuffer_init_noreturn : Int
deriving DecidableEq

/-- Everything a driver function can read or change: the driver data attached to the
platform device (`platform_get_drvdata`, `none` when unset), the file-scope template
`dma_tmplt`, and the log of collaborator calls made so far, oldest first. -/
structure World where
  drvdata : Option xilinx_vdma_fb_drvdata
  dma_tmplt : dma_interleaved_template
  calls : List Call
deriving DecidableEq

/-- Record a collaborator call. -/
def World.call (w : World) (c : Call) : World :=
  { w with calls := w.calls ++ [c] }

/-- Store through the `drvdata` pointer. -/
def World.set (w : World) (d : xilinx_vdma_fb_drvdata) : World :=
  { w with drvdata := some d }

/-- The world a platform device is probed in: no driver data, zeroed statics, empty log. -/
def World.init : World :=
  { drvdata := none, dma_tmplt := dma_tmplt_zero, calls := [] }

/-! ## The palette register routine -/

/-- The 32-bit words addressed through the pointer `u32 *palette = fbi->pseudo_palette`,
indexed by word offset from the pointer.  Only offsets below `PSEUDO_PALETTE_LEN` lie in
the array `drvdata.pseudo_palette`. -/
abbrev PaletteMem := Nat → Nat

/-- The routine `xilinx_vdma_fb_setcolreg(regno, red, green, blue, transp, fbi)`. -/
def xilinx_vdma_fb_setcolreg (k : Kernel) (regno red green blue transp : Nat)
    (fbi : fb_info) (palette : PaletteMem) : Outcome × PaletteMem :=
  let _ := transp
  if regno ≥ PALETTE_ENTRIES_NO then
    (.ret (-(k.EINVAL : Int)), palette)
  else
    let rgb : Nat × Nat × Nat :=
      if fbi.var.grayscale ≠ 0 then
        let blue := u32 (u32 (u32 (u32 (red * 77) + u32 (green * 151)) + u32 (blue * 28)) + 127) >>> 8
        let green := blue
        let red := green
        (red, green, blue)
      else
        (red, green, blue)
    let red := rgb.1 >>> 8
    let green := rgb.2.1 >>> 8
    let blue := rgb.2.2 >>> 8
    let v := u32 (red <<< RED_SHIFT) ||| u32 (green <<< GREEN_SHIFT) ||| u32 (blue <<< BLUE_SHIFT)
    match fbi.pseudo_palette with
    | .null => (.oops, palette)
    | .drvdata_pseudo_palette => (.ret 0, Function.update palette regno v)

/-! ## Bring-up stages -/

/-- The stage `framebuffer_init(pdev)`. -/
def framebuffer_init (env : Env) (w : World) : Outcome × World :=
  match w.drvdata with
  | none => (.ret (-1), w)
  | some drvdata =>
    let height := drvdata.fb_conf.resolution_height
    let width := drvdata.fb_conf.resolution_width
    let info : fb_info :=
      { screen_buffer := drvdata.fb_virtual
        fbops_set := true
        fix := { xilinx_vdma_fb_fix with
                 smem_start := drvdata.fb_phy
                 smem_len := u32 (u32 (height * width) * BITS_PER_PIXEL) / 8
                 line_length := u32 (width * BITS_PER_PIXEL) / 8 }
        pseudo_palette := .drvdata_pseudo_palette
        var := { xilinx_fb_var with
                 height := height
                 width := width
                 xres := width
                 yres := height
                 xres_virtual := width
                 yres_virtual := height } }
    let w := w.set { drvdata with info := info }
    let w := w.call (.fb_alloc_cmap PALETTE_ENTRIES_NO 0)
    if env.fb_alloc_cmap ≠ 0 then
      (.ret (-1), w)
    else
      let w := w.call .register_framebuffer
      if env.register_framebuffer ≠ 0 then
        (.ret (-1), w)
      else
        (.ret env.framebuffer_init_noreturn, w)

/-- The stage `vdma_init(pdev)`. -/
def vdma_init (env : Env) (w : World) : Outcome × World :=
  match w.drvdata with
  | none => (.ret (-1), w)
  | some drvdata =>
    let w := w.call .dma_request_slave_channel
    let drvdata := { drvdata with mm2s_dma_chan := env.dma_request_slave_channel }
    let w := w.set drvdata
    match env.dma_request_slave_channel with
    | none => (.ret (-1), w)
    | some chan =>
      let cfg : xilinx_vdma_config := { coalesc := 0, park := 1, park_frm := 0, delay := 0 }
      let drvdata := { drvdata with vdma_config := cfg }
      let w := w.set drvdata
      let w := w.call (.xilinx_vdma_channel_set_config chan cfg)
      if env.xilinx_vdma_channel_set_config ≠ 0 then
        (.ret (-1), w)
      else
        let height := drvdata.fb_conf.resolution_height
        let width := drvdata.fb_conf.resolution_width
        let size := PAGE_ALIGN env.k (u32 (u32 (height * width) * BITS_PER_PIXEL) / 8)
        let w := w.call (.dma_alloc_coherent size)
        match env.dma_alloc_coherent with
        | none =>
          (.ret (-1), w.set { drvdata with fb_virtual := none })
        | some (virt, phy) =>
          let drvdata := { drvdata with fb_virtual := some virt, fb_phy := phy }
          let w := w.set drvdata
          let w := w.call (.memset_io virt 0x41 size)
          let w := w.call (.dmaengine_terminate_all chan)
          let xt : dma_interleaved_template :=
            { w.dma_tmplt with
              src_start := drvdata.fb_phy
              dir := .DMA_MEM_TO_DEV
              numf := drvdata.fb_conf.resolution_height
              src_sgl := 0
              src_inc := 1
              dst_inc := 0
              dst_sgl := 0
              sgl0_size := u32 (drvdata.fb_conf.resolution_width * BITS_PER_PIXEL) / 8
              sgl0_icg := 0
              frame_size := 1 }
          let w := { w with dma_tmplt := xt }
          let w := w.call (.dmaengine_prep_interleaved_dma chan xt)
          let txd := env.dmaengine_prep_interleaved_dma
          let w := w.call (.dmaengine_submit txd)
          match txd with
          | none => (.oops, w)
          | some _ =>
            let w := w.call (.dma_async_issue_pending chan)
            (.ret env.vdma_init_noreturn, w)

/-- The stage `dynclk_init(pdev)`. -/
def dynclk_init (env : Env) (w : World) : Outcome × World :=
  match w.drvdata with
  | none => (.ret (-1), w)
  | some drvdata =>
    let w := w.call .devm_clk_get
    let w := w.set { drvdata with dyn_clk := env.devm_clk_get }
    match env.devm_clk_get with
    | none => (.ret (-1), w)
    | some clk =>
      let w := w.call (.clk_prepare_enable clk)
      if env.clk_prepare_enable ≠ 0 then
        (.ret (-1), w)
      else
        let w := w.call (.clk_get_rate clk)
        let w := w.call (.clk_round_rate clk DYNCLK_RATE)
        let set_clk := env.clk_round_rate
        let w := w.call (.clk_set_rate clk set_clk)
        if env.clk_set_rate ≠ 0 then
          (.ret (-1), w)
        else
          (.ret 0, w)

/-- The stage `xvtc_init(pdev)`. -/
def xvtc_init (env : Env) (w : World) : Outcome × World :=
  match w.drvdata with
  | none => (.ret (-1), w)
  | some drvdata =>
    let w := w.call .xvtc_of_get
    let drvdata := { drvdata with vtc_device := env.xvtc_of_get }
    let w := w.set drvdata
    match env.xvtc_of_get with
    | none => (.ret (-1), w)
    | some xvtc =>
      let p := vtc_parameter.get ⟨4, by decide⟩
      let config : xvtc_config :=
        { hblank_start := p.width
          vblank_start := p.height
          hsync_start := p.hps
          hsync_end := p.hpe
          vsync_start := p.vps
          vsync_end := p.vpe
          hsize := p.hmax
          vsize := p.vmax }
      let w := w.set { drvdata with vtc_config := config }
      let w := w.call (.xvtc_generator_start xvtc config)
      (.ret 0, w)

/-! ## Probe and remove -/

/-- The entry point `xilinx_vdma_fb_probe(pdev)`.  The result of each stage only selects a log message.
The labels `error_regfb:` and `error:` after `return 0` are never jumped to. -/
def xilinx_vdma_fb_probe (env : Env) (w : World) : Outcome × World :=
  let w := w.call .devm_kzalloc
  if !env.devm_kzalloc then
    (.ret (-(env.k.ENOMEM : Int)), w)
  else
    let w := (w.set drvdata_zero).call .platform_set_drvdata
    let w := w.set { drvdata_zero with fb_conf := xilinx_vdma_fb_default_conf }
    match dynclk_init env w with
    | (.oops, w) => (.oops, w)
    | (.ret _, w) =>
      match xvtc_init env w with
      | (.oops, w) => (.oops, w)
      | (.ret _, w) =>
        match vdma_init env w with
        | (.oops, w) => (.oops, w)
        | (.ret _, w) =>
          match framebuffer_init env w with
          | (.oops, w) => (.oops, w)
          | (.ret _, w) => (.ret 0, w)

/-- The entry point `xilinx_vdma_fb_remove(pdev)`. -/
def xilinx_vdma_fb_remove (env : Env) (w : World) : Outcome × World :=
  match w.drvdata with
  | none => (.oops, w)
  | some drvdata =>
    let fb_conf := xilinx_vdma_fb_default_conf
    let w := w.call .unregister_framebuffer
    let w := w.call .fb_dealloc_cmap
    let size := PAGE_ALIGN env.k
      (u32 (u32 (fb_conf.resolution_height * fb_conf.resolution_width) * BITS_PER_PIXEL) / 8)
    let w := w.call (.dma_free_coherent size drvdata.fb_virtual drvdata.fb_phy)
    let w := w.call (.dma_release_channel drvdata.mm2s_dma_chan)
    (.ret 0, w)

/-! ## Concrete runs used as witnesses -/

/-- Kernel constants of a 32-bit ARM Linux build. -/
def kernel_arm : Kernel := { EINVAL := 22, ENOMEM := 12, PAGE_SIZE := 4096 }

/-- A run in which every collaborator succeeds. -/
def env_ok : Env :=
  { k := kernel_arm, devm_kzalloc := true, devm_clk_get := some 1, clk_prepare_enable := 0,
    clk_get_rate := 100000000, clk_round_rate := 148500000, clk_set_rate := 0,
    xvtc_of_get := some 2, dma_request_slave_channel := some 3,
    xilinx_vdma_channel_set_config := 0, dma_alloc_coherent := some (0x1000, 0x30000000),
    dmaengine_prep_interleaved_dma := some 4, dmaengine_submit := 1, fb_alloc_cmap := 0,
    register_framebuffer := 0, vdma_init_noreturn := 0, framebuffer_init_noreturn := 0 }

/-- A world whose driver data asks for the given resolution. -/
def world_with (height width : Nat) : World :=
  World.init.set { drvdata_zero with fb_conf := ⟨height, width⟩ }

/-- The timing configuration `xvtc_init` copies out of a table row. -/
def config_of (p : s_vtcParameter) : xvtc_config :=
  { hblank_start := p.width, vblank_start := p.height, hsync_start := p.hps,
    hsync_end := p.hpe, vsync_start := p.vps, vsync_end := p.vpe,
    hsize := p.hmax, vsize := p.vmax }

/-- The `fb_info` that `framebuffer_init` has filled in after a probe in which everything
succeeds. -/
def fbi_registered : fb_info :=
  match (xilinx_vdma_fb_probe env_ok World.init).2.drvdata with
  | some d => d.info
  | none => drvdata_zero.info

/-- The same `fb_info` after the consumer has requested grayscale. -/
def fbi_grayscale : fb_info :=
  { fbi_registered with var := { fbi_registered.var with grayscale := 1 } }

/-- The value `xilinx_vdma_fb_setcolreg` stores for colour components that already had
their low byte dropped. -/
def pack_rgb (r g b : Nat) : Nat :=
  u32 (r <<< RED_SHIFT) ||| u32 (g <<< GREEN_SHIFT) ||| u32 (b <<< BLUE_SHIFT)

/-- A run in which `devm_clk_get` hands back an error pointer and everything else
succeeds. -/
def env_clk_fail : Env := { env_ok with devm_clk_get := none }

/-- A run in which `dma_alloc_coherent` returns NULL and everything else succeeds. -/
def env_alloc_fail : Env := { env_ok with dma_alloc_coherent := none }

/-- The world in which `xilinx_vdma_fb_probe` calls its first stage. -/
def world_probing : World :=
  (((World.init.call .devm_kzalloc).set drvdata_zero).call .platform_set_drvdata).set
    { drvdata_zero with fb_conf := xilinx_vdma_fb_default_conf }

/-- A disarm of a DMA channel: `dmaengine_terminate_all`. -/
def Call.isDisarm : Call → Bool
  | .dmaengine_terminate_all _ => true
  | _ => false

/-- A release of the frame buffer: `dma_free_coherent`. -/
def Call.isFree : Call → Bool
  | .dma_free_coherent _ _ _ => true
  | _ => false

/-- A release of the clock: `clk_disable_unprepare`. -/
def Call.isClockRelease : Call → Bool
  | .clk_disable_unprepare _ => true
  | _ => false

/-- A stop of the timing generator: `xvtc_generator_stop`. -/
def Call.isTimingStop : Call → Bool
  | .xvtc_generator_stop _ => true
  | _ => false

/-- Some disarm is logged strictly before some release of the frame buffer. -/
def disarm_before_free : List Call → Bool
  | [] => false
  | c :: rest => (c.isDisarm && rest.any Call.isFree) || disarm_before_free rest

/-- The timing configuration of table row 4 (1920x1080@60Hz). -/
def config_1080p : xvtc_config :=
  { hblank_start := 1920, hsync_start := 2008, hsync_end := 2052, hsize := 2200,
    vblank_start := 1080, vsync_start := 1083, vsync_end := 1088, vsize := 1125 }

/-- The template `vdma_init` builds on the run `env_ok` for 1920x1080. -/
def tmplt_1080p : dma_interleaved_template :=
  { src_start := 0x30000000, dst_start := 0, dir := .DMA_MEM_TO_DEV, numf := 1080,
    src_sgl := 0, src_inc := 1, dst_inc := 0, dst_sgl := 0, sgl0_size := 7680,
    sgl0_icg := 0, frame_size := 1 }

/-! ## Helper lemmas -/

/-- A property of all five rows of the table holds for every member of the table. -/
theorem forall_mem_vtc_parameter (P : s_vtcParameter → Prop)
    (h0 : P (vtc_parameter.get ⟨0, by decide⟩)) (h1 : P (vtc_parameter.get ⟨1, by decide⟩))
    (h2 : P (vtc_parameter.get ⟨2, by decide⟩)) (h3 : P (vtc_parameter.get ⟨3, by decide⟩))
    (h4 : P (vtc_parameter.get ⟨4, by decide⟩)) :
    ∀ p ∈ vtc_parameter, P p := by
  intro p hp
  simp only [vtc_parameter, List.mem_cons, List.mem_singleton, List.not_mem_nil,
    or_false] at hp
  rcases hp with h | h | h | h | h <;> subst h
  · exact h0
  · exact h1
  · exact h2
  · exact h3
  · exact h4

/-! ## The mode table -/

/-- C7: every entry of the static mode table `vtc_parameter` satisfies
`0 < hps < hpe <= hmax` and `0 < vps < vpe <= vmax`. -/
theorem C7_vtc_parameter_sync_ordered (p : s_vtcParameter) (hp : p ∈ vtc_parameter) :
    0 < p.hps ∧ p.hps < p.hpe ∧ p.hpe ≤ p.hmax ∧
    0 < p.vps ∧ p.vps < p.vpe ∧ p.vpe ≤ p.vmax := by
  revert p
  apply forall_mem_vtc_parameter <;> decide

theorem C7_vtc_parameter_sync_ordered_witness :
    vtc_parameter.get ⟨2, by decide⟩ ∈ vtc_parameter ∧
    (0 < (vtc_parameter.get ⟨2, by decide⟩).hps ∧
     (vtc_parameter.get ⟨2, by decide⟩).hps < (vtc_parameter.get ⟨2, by decide⟩).hpe ∧
     (vtc_parameter.get ⟨2, by decide⟩).hpe ≤ (vtc_parameter.get ⟨2, by decide⟩).hmax ∧
     0 < (vtc_parameter.get ⟨2, by decide⟩).vps ∧
     (vtc_parameter.get ⟨2, by decide⟩).vps < (vtc_parameter.get ⟨2, by decide⟩).vpe ∧
     (vtc_parameter.get ⟨2, by decide⟩).vpe ≤ (vtc_parameter.get ⟨2, by decide⟩).vmax) :=
  ⟨List.get_mem _ _ _, C7_vtc_parameter_sync_ordered _ (List.get_mem _ _ _)⟩

/-! ## Frame-buffer geometry -/

/-- The driver data `framebuffer_init` leaves behind does not depend on what the
frame-buffer core answers. -/
theorem framebuffer_init_drvdata (env : Env) (w : World) (d : xilinx_vdma_fb_drvdata)
    (hw : w.drvdata = some d) :
    ∃ d2, (framebuffer_init env w).2.drvdata = some d2 ∧
      d2.info.fix.smem_len =
        u32 (u32 (d.fb_conf.resolution_height * d.fb_conf.resolution_width) * 32) / 8 ∧
      d2.info.fix.line_length = u32 (d.fb_conf.resolution_width * 32) / 8 ∧
      d2.info.pseudo_palette = .drvdata_pseudo_palette ∧
      d2.fb_conf = d.fb_conf := by
  unfold framebuffer_init
  rw [hw]
  simp only [BITS_PER_PIXEL]
  split_ifs <;> exact ⟨_, rfl, rfl, rfl, rfl, rfl⟩

/-- C5: for every catalog mode used as the configured resolution, `framebuffer_init`
sets `fix.smem_len` to `width * height * 4` and `fix.line_length` to `width * 4`, the
32-bit products do not wrap, and so `smem_len = height * line_length`; for 1280x720
the length is 3,686,400. -/
theorem C5_framebuffer_init_length (env : Env) (w : World) (d : xilinx_vdma_fb_drvdata)
    (p : s_vtcParameter) (hp : p ∈ vtc_parameter) (hw : w.drvdata = some d)
    (hconf : d.fb_conf = ⟨p.height, p.width⟩) :
    ∃ d2, (framebuffer_init env w).2.drvdata = some d2 ∧
      d2.info.fix.smem_len = p.width * p.height * 4 ∧
      d2.info.fix.line_length = p.width * 4 ∧
      d2.info.fix.smem_len = p.height * d2.info.fix.line_length ∧
      p.height * p.width * BITS_PER_PIXEL < 2 ^ 32 ∧
      p.width * BITS_PER_PIXEL < 2 ^ 32 ∧
      (p.width = 1280 → p.height = 720 → d2.info.fix.smem_len = 3686400) := by
  obtain ⟨d2, h2, hlen, hline, -, -⟩ := framebuffer_init_drvdata env w d hw
  refine ⟨d2, h2, ?_⟩
  rw [hlen, hline, hconf]
  revert p
  apply forall_mem_vtc_parameter <;> intro _ <;> decide

theorem C5_framebuffer_init_length_witness :
    ∃ d2, (framebuffer_init env_ok (world_with 720 1280)).2.drvdata = some d2 ∧
      d2.info.fix.smem_len = 1280 * 720 * 4 ∧
      d2.info.fix.line_length = 1280 * 4 ∧
      d2.info.fix.smem_len = 720 * d2.info.fix.line_length ∧
      720 * 1280 * BITS_PER_PIXEL < 2 ^ 32 ∧
      1280 * BITS_PER_PIXEL < 2 ^ 32 ∧
      ((1280 : Nat) = 1280 → (720 : Nat) = 720 → d2.info.fix.smem_len = 3686400) :=
  C5_framebuffer_init_length env_ok (world_with 720 1280)
    { drvdata_zero with fb_conf := ⟨720, 1280⟩ } (vtc_parameter.get ⟨2, by decide⟩)
    (List.get_mem _ _ _) rfl rfl

/-- C6: for every configured resolution, the template `vdma_init` builds and hands to
`dmaengine_prep_interleaved_dma` has `sgl[0].size` equal to the `fix.line_length` that
`framebuffer_init` sets and `numf` equal to the configured height; for 1280x720 that is
a row size of 5120 and a row count of 720. -/
theorem C6_vdma_init_template (env : Env) (w : World) (d : xilinx_vdma_fb_drvdata)
    (chan virt phy : Nat) (hw : w.drvdata = some d)
    (hchan : env.dma_request_slave_channel = some chan)
    (hcfg : env.xilinx_vdma_channel_set_config = 0)
    (halloc : env.dma_alloc_coherent = some (virt, phy)) :
    ∃ d2, (framebuffer_init env (vdma_init env w).2).2.drvdata = some d2 ∧
      Call.dmaengine_prep_interleaved_dma chan (vdma_init env w).2.dma_tmplt
        ∈ (vdma_init env w).2.calls ∧
      (vdma_init env w).2.dma_tmplt.sgl0_size = d2.info.fix.line_length ∧
      (vdma_init env w).2.dma_tmplt.numf = d.fb_conf.resolution_height ∧
      (d.fb_conf = ⟨720, 1280⟩ →
        (vdma_init env w).2.dma_tmplt.sgl0_size = 5120 ∧
        (vdma_init env w).2.dma_tmplt.numf = 720) := by
  have hv : ∃ d1, (vdma_init env w).2.drvdata = some d1 ∧ d1.fb_conf = d.fb_conf ∧
      Call.dmaengine_prep_interleaved_dma chan (vdma_init env w).2.dma_tmplt
        ∈ (vdma_init env w).2.calls ∧
      (vdma_init env w).2.dma_tmplt.sgl0_size = u32 (d.fb_conf.resolution_width * 32) / 8 ∧
      (vdma_init env w).2.dma_tmplt.numf = d.fb_conf.resolution_height := by
    unfold vdma_init
    rw [hw]
    simp only [hchan, hcfg, halloc, BITS_PER_PIXEL, ne_eq, not_true_eq_false, if_false]
    cases env.dmaengine_prep_interleaved_dma <;>
      exact ⟨_, rfl, rfl, by simp [World.call, World.set], rfl, rfl⟩
  obtain ⟨d1, h1, hc1, hmem, hsize, hnumf⟩ := hv
  obtain ⟨d2, h2, -, hline, -, -⟩ := framebuffer_init_drvdata env _ d1 h1
  refine ⟨d2, h2, hmem, ?_, hnumf, ?_⟩
  · rw [hsize, hline, hc1]
  · intro hconf
    rw [hsize, hnumf, hconf]
    decide

theorem C6_vdma_init_template_witness :
    ∃ d2, (framebuffer_init env_ok (vdma_init env_ok (world_with 720 1280)).2).2.drvdata
        = some d2 ∧
      Call.dmaengine_prep_interleaved_dma 3 (vdma_init env_ok (world_with 720 1280)).2.dma_tmplt
        ∈ (vdma_init env_ok (world_with 720 1280)).2.calls ∧
      (vdma_init env_ok (world_with 720 1280)).2.dma_tmplt.sgl0_size
        = d2.info.fix.line_length ∧
      (vdma_init env_ok (world_with 720 1280)).2.dma_tmplt.numf = 720 ∧
      ((⟨720, 1280⟩ : xilinx_vdma_fb_conf) = ⟨720, 1280⟩ →
        (vdma_init env_ok (world_with 720 1280)).2.dma_tmplt.sgl0_size = 5120 ∧
        (vdma_init env_ok (world_with 720 1280)).2.dma_tmplt.numf = 720) :=
  C6_vdma_init_template env_ok (world_with 720 1280)
    { drvdata_zero with fb_conf := ⟨720, 1280⟩ } 3 0x1000 0x30000000 rfl rfl rfl rfl

/-! ## Timing configuration -/

/-- C1 fails as stated: with the catalog mode 1280x720 as configured resolution,
`xvtc_init` hands `xvtc_generator_start` the timings of the 1920x1080 row
(`hsync_start = 2008`), not those of the 1280x720 row (`hsync_start = 1390`). -/
theorem C1_counterexample :
    vtc_parameter.get ⟨2, by decide⟩ ∈ vtc_parameter ∧
    (world_with 720 1280).drvdata =
      some { drvdata_zero with
             fb_conf := ⟨(vtc_parameter.get ⟨2, by decide⟩).height,
                         (vtc_parameter.get ⟨2, by decide⟩).width⟩ } ∧
    (xvtc_init env_ok (world_with 720 1280)).2.calls =
      [Call.xvtc_of_get,
       Call.xvtc_generator_start 2
         { hblank_start := 1920, hsync_start := 2008, hsync_end := 2052, hsize := 2200,
           vblank_start := 1080, vsync_start := 1083, vsync_end := 1088, vsize := 1125 }] ∧
    config_of (vtc_parameter.get ⟨2, by decide⟩) =
      { hblank_start := 1280, hsync_start := 1390, hsync_end := 1430, hsize := 1650,
        vblank_start := 720, vsync_start := 724, vsync_end := 729, vsize := 750 } ∧
    Call.xvtc_generator_start 2 (config_of (vtc_parameter.get ⟨2, by decide⟩))
      ∉ (xvtc_init env_ok (world_with 720 1280)).2.calls := by
  refine ⟨List.get_mem _ _ _, rfl, rfl, rfl, ?_⟩
  decide

/-- C1, amended: whatever resolution is configured, `xvtc_init` returns 0 after handing
`xvtc_generator_start` the fields of table row 4 (1920x1080@60Hz), and stores them in
`vtc_config`; these are the fields of the catalog entry matching the configured
resolution when that resolution is 1920x1080, the default that `probe` sets. -/
theorem C1_xvtc_init_config (env : Env) (w : World) (d : xilinx_vdma_fb_drvdata)
    (xvtc : Nat) (hw : w.drvdata = some d) (hx : env.xvtc_of_get = some xvtc) :
    (xvtc_init env w).1 = .ret 0 ∧
    (xvtc_init env w).2.calls =
      w.calls ++ [Call.xvtc_of_get,
        Call.xvtc_generator_start xvtc
          { hblank_start := 1920, hsync_start := 2008, hsync_end := 2052, hsize := 2200,
            vblank_start := 1080, vsync_start := 1083, vsync_end := 1088, vsize := 1125 }] ∧
    (xvtc_init env w).2.drvdata =
      some { d with
             vtc_device := some xvtc
             vtc_config :=
               { hblank_start := 1920, hsync_start := 2008, hsync_end := 2052, hsize := 2200,
                 vblank_start := 1080, vsync_start := 1083, vsync_end := 1088,
                 vsize := 1125 } } ∧
    (∀ p ∈ vtc_parameter, d.fb_conf = ⟨p.height, p.width⟩ →
      d.fb_conf = xilinx_vdma_fb_default_conf →
      Call.xvtc_generator_start xvtc (config_of p) ∈ (xvtc_init env w).2.calls) := by
  have hcalls : (xvtc_init env w).2.calls =
      w.calls ++ [Call.xvtc_of_get,
        Call.xvtc_generator_start xvtc
          { hblank_start := 1920, hsync_start := 2008, hsync_end := 2052, hsize := 2200,
            vblank_start := 1080, vsync_start := 1083, vsync_end := 1088, vsize := 1125 }] := by
    unfold xvtc_init
    rw [hw]
    simp only [hx, World.call, World.set, List.append_assoc, List.singleton_append]
    rfl
  refine ⟨?_, hcalls, ?_, ?_⟩
  · unfold xvtc_init
    rw [hw]
    simp only [hx]
  · unfold xvtc_init
    rw [hw]
    simp only [hx, World.call, World.set]
    rfl
  · rw [hcalls]
    intro p hp h1 h2
    have hp2 : p.height = 1080 ∧ p.width = 1920 := by
      rw [h2] at h1
      simp only [xilinx_vdma_fb_default_conf, xilinx_vdma_fb_conf.mk.injEq] at h1
      exact ⟨h1.1.symm, h1.2.symm⟩
    have : config_of p =
        { hblank_start := 1920, hsync_start := 2008, hsync_end := 2052, hsize := 2200,
          vblank_start := 1080, vsync_start := 1083, vsync_end := 1088, vsize := 1125 } := by
      clear h1
      revert p
      apply forall_mem_vtc_parameter <;> intro h <;> first | rfl | (exfalso; revert h; decide)
    rw [this]
    simp

theorem C1_xvtc_init_config_witness :
    (xvtc_init env_ok (world_with 1080 1920)).1 = .ret 0 ∧
    (xvtc_init env_ok (world_with 1080 1920)).2.calls =
      (world_with 1080 1920).calls ++ [Call.xvtc_of_get,
        Call.xvtc_generator_start 2
          { hblank_start := 1920, hsync_start := 2008, hsync_end := 2052, hsize := 2200,
            vblank_start := 1080, vsync_start := 1083, vsync_end := 1088, vsize := 1125 }] ∧
    (xvtc_init env_ok (world_with 1080 1920)).2.drvdata =
      some { ({ drvdata_zero with fb_conf := ⟨1080, 1920⟩ } : xilinx_vdma_fb_drvdata) with
             vtc_device := some 2
             vtc_config :=
               { hblank_start := 1920, hsync_start := 2008, hsync_end := 2052, hsize := 2200,
                 vblank_start := 1080, vsync_start := 1083, vsync_end := 1088,
                 vsize := 1125 } } ∧
    (∀ p ∈ vtc_parameter,
      ({ drvdata_zero with fb_conf := ⟨1080, 1920⟩ } : xilinx_vdma_fb_drvdata).fb_conf
        = ⟨p.height, p.width⟩ →
      ({ drvdata_zero with fb_conf := ⟨1080, 1920⟩ } : xilinx_vdma_fb_drvdata).fb_conf
        = xilinx_vdma_fb_default_conf →
      Call.xvtc_generator_start 2 (config_of p)
        ∈ (xvtc_init env_ok (world_with 1080 1920)).2.calls) :=
  C1_xvtc_init_config env_ok (world_with 1080 1920)
    { drvdata_zero with fb_conf := ⟨1080, 1920⟩ } 2 rfl rfl

/-! ## The palette register routine -/

/-- Left shifts of bytes by 16, 8 and 0 do not overlap: their bitwise OR is their sum. -/
theorem pack_rgb_eq (r g b : Nat) (hr : r < 256) (hg : g < 256) (hb : b < 256) :
    pack_rgb r g b = r * 65536 + g * 256 + b := by
  unfold pack_rgb u32 RED_SHIFT GREEN_SHIFT BLUE_SHIFT
  simp only [Nat.shiftLeft_eq]
  rw [Nat.mod_eq_of_lt (by omega), Nat.mod_eq_of_lt (by omega), Nat.mod_eq_of_lt (by omega)]
  have h1 : r * 2 ^ 16 ||| g * 2 ^ 8 = 2 ^ 16 * r + g * 2 ^ 8 := by
    rw [Nat.mul_comm r]
    exact (Nat.mul_add_lt_is_or (by omega) r).symm
  have h2 : 2 ^ 16 * r + g * 2 ^ 8 = 2 ^ 8 * (2 ^ 8 * r + g) := by omega
  rw [h1, h2, ← Nat.mul_add_lt_is_or (by omega)]
  omega

/-- What an accepted call of `xilinx_vdma_fb_setcolreg` in true-colour mode does. -/
theorem setcolreg_truecolor (k : Kernel) (regno red green blue transp : Nat) (fbi : fb_info)
    (palette : PaletteMem) (hregno : regno < 256) (hgray : fbi.var.grayscale = 0)
    (hbound : fbi.pseudo_palette = .drvdata_pseudo_palette) :
    xilinx_vdma_fb_setcolreg k regno red green blue transp fbi palette =
      (.ret 0, Function.update palette regno
        (pack_rgb (red >>> 8) (green >>> 8) (blue >>> 8))) := by
  unfold xilinx_vdma_fb_setcolreg pack_rgb
  have h : ¬ regno ≥ PALETTE_ENTRIES_NO := by unfold PALETTE_ENTRIES_NO; omega
  simp only [h, hgray, hbound, if_false, ne_eq, not_true_eq_false]

/-- What an accepted call of `xilinx_vdma_fb_setcolreg` in grayscale mode does. -/
theorem setcolreg_grayscale (k : Kernel) (regno red green blue transp : Nat) (fbi : fb_info)
    (palette : PaletteMem) (hregno : regno < 256) (hgray : fbi.var.grayscale ≠ 0)
    (hbound : fbi.pseudo_palette = .drvdata_pseudo_palette) :
    xilinx_vdma_fb_setcolreg k regno red green blue transp fbi palette =
      (.ret 0, Function.update palette regno
        (pack_rgb
          ((u32 (u32 (u32 (u32 (red * 77) + u32 (green * 151)) + u32 (blue * 28)) + 127)
            >>> 8) >>> 8)
          ((u32 (u32 (u32 (u32 (red * 77) + u32 (green * 151)) + u32 (blue * 28)) + 127)
            >>> 8) >>> 8)
          ((u32 (u32 (u32 (u32 (red * 77) + u32 (green * 151)) + u32 (blue * 28)) + 127)
            >>> 8) >>> 8))) := by
  unfold xilinx_vdma_fb_setcolreg pack_rgb
  have h : ¬ regno ≥ PALETTE_ENTRIES_NO := by unfold PALETTE_ENTRIES_NO; omega
  simp only [h, hgray, hbound, if_false, if_true, ne_eq, not_false_eq_true]

/-- C8: for every `regno < 256` and red, green, blue in `0..0xFFFF` with grayscale off,
`xilinx_vdma_fb_setcolreg` returns 0 and stores in `palette[regno]` the 32-bit value whose
bits 16-23 are the high byte of red, bits 8-15 the high byte of green, bits 0-7 the high
byte of blue and whose bits 24-31 are zero; no other word changes, and the result does
not depend on `transp`. -/
theorem C8_setcolreg_truecolor (k : Kernel) (regno red green blue transp : Nat)
    (fbi : fb_info) (palette : PaletteMem)
    (hregno : regno < 256) (hr : red ≤ 0xFFFF) (hg : green ≤ 0xFFFF) (hb : blue ≤ 0xFFFF)
    (hgray : fbi.var.grayscale = 0)
    (hbound : fbi.pseudo_palette = .drvdata_pseudo_palette) :
    (xilinx_vdma_fb_setcolreg k regno red green blue transp fbi palette).1 = .ret 0 ∧
    ((xilinx_vdma_fb_setcolreg k regno red green blue transp fbi palette).2 regno >>> 16)
      % 256 = red >>> 8 ∧
    ((xilinx_vdma_fb_setcolreg k regno red green blue transp fbi palette).2 regno >>> 8)
      % 256 = green >>> 8 ∧
    (xilinx_vdma_fb_setcolreg k regno red green blue transp fbi palette).2 regno
      % 256 = blue >>> 8 ∧
    (xilinx_vdma_fb_setcolreg k regno red green blue transp fbi palette).2 regno >>> 24 = 0 ∧
    (∀ i, i ≠ regno →
      (xilinx_vdma_fb_setcolreg k regno red green blue transp fbi palette).2 i = palette i) ∧
    (∀ transp2,
      xilinx_vdma_fb_setcolreg k regno red green blue transp2 fbi palette =
      xilinx_vdma_fb_setcolreg k regno red green blue transp fbi palette) := by
  have hv := pack_rgb_eq (red >>> 8) (green >>> 8) (blue >>> 8)
    (by rw [Nat.shiftRight_eq_div_pow]; omega) (by rw [Nat.shiftRight_eq_div_pow]; omega)
    (by rw [Nat.shiftRight_eq_div_pow]; omega)
  rw [setcolreg_truecolor k regno red green blue transp fbi palette hregno hgray hbound]
  simp only [Function.update_same, hv]
  simp only [Nat.shiftRight_eq_div_pow]
  refine ⟨trivial, by omega, by omega, by omega, by omega, ?_, ?_⟩
  · intro i hi
    exact Function.update_noteq hi _ _
  · intro transp2
    rw [setcolreg_truecolor k regno red green blue transp2 fbi palette hregno hgray hbound,
      hv]
    simp only [Nat.shiftRight_eq_div_pow]

theorem C8_setcolreg_truecolor_witness :
    (xilinx_vdma_fb_setcolreg kernel_arm 5 0x1234 0xABCD 0xFFFF 9 fbi_registered
      (fun _ => 0)).1 = .ret 0 ∧
    ((xilinx_vdma_fb_setcolreg kernel_arm 5 0x1234 0xABCD 0xFFFF 9 fbi_registered
      (fun _ => 0)).2 5 >>> 16) % 256 = 0x1234 >>> 8 ∧
    ((xilinx_vdma_fb_setcolreg kernel_arm 5 0x1234 0xABCD 0xFFFF 9 fbi_registered
      (fun _ => 0)).2 5 >>> 8) % 256 = 0xABCD >>> 8 ∧
    (xilinx_vdma_fb_setcolreg kernel_arm 5 0x1234 0xABCD 0xFFFF 9 fbi_registered
      (fun _ => 0)).2 5 % 256 = 0xFFFF >>> 8 ∧
    (xilinx_vdma_fb_setcolreg kernel_arm 5 0x1234 0xABCD 0xFFFF 9 fbi_registered
      (fun _ => 0)).2 5 >>> 24 = 0 ∧
    (∀ i, i ≠ 5 →
      (xilinx_vdma_fb_setcolreg kernel_arm 5 0x1234 0xABCD 0xFFFF 9 fbi_registered
        (fun _ => 0)).2 i = (fun _ => 0) i) ∧
    (∀ transp2,
      xilinx_vdma_fb_setcolreg kernel_arm 5 0x1234 0xABCD 0xFFFF transp2 fbi_registered
        (fun _ => 0) =
      xilinx_vdma_fb_setcolreg kernel_arm 5 0x1234 0xABCD 0xFFFF 9 fbi_registered
        (fun _ => 0)) :=
  C8_setcolreg_truecolor kernel_arm 5 0x1234 0xABCD 0xFFFF 9 fbi_registered (fun _ => 0)
    (by decide) (by decide) (by decide) (by decide) rfl rfl

/-- C9: for every `regno < 256` and red R, green G, blue B in `0..0xFFFF` with grayscale
requested, `xilinx_vdma_fb_setcolreg` replaces all three channels by the luma
`L = (77*R + 151*G + 28*B + 127) >> 8`, computed without 32-bit overflow and at most
`0xFFFF`, so the stored palette entry has identical red, green and blue bytes, each
`L >> 8`. -/
theorem C9_setcolreg_grayscale (k : Kernel) (regno red green blue transp : Nat)
    (fbi : fb_info) (palette : PaletteMem)
    (hregno : regno < 256) (hr : red ≤ 0xFFFF) (hg : green ≤ 0xFFFF) (hb : blue ≤ 0xFFFF)
    (hgray : fbi.var.grayscale ≠ 0)
    (hbound : fbi.pseudo_palette = .drvdata_pseudo_palette) :
    77 * red + 151 * green + 28 * blue + 127 < 2 ^ 32 ∧
    (77 * red + 151 * green + 28 * blue + 127) >>> 8 ≤ 0xFFFF ∧
    (xilinx_vdma_fb_setcolreg k regno red green blue transp fbi palette).1 = .ret 0 ∧
    ((xilinx_vdma_fb_setcolreg k regno red green blue transp fbi palette).2 regno >>> 16)
      % 256 = ((77 * red + 151 * green + 28 * blue + 127) >>> 8) >>> 8 ∧
    ((xilinx_vdma_fb_setcolreg k regno red green blue transp fbi palette).2 regno >>> 8)
      % 256 = ((77 * red + 151 * green + 28 * blue + 127) >>> 8) >>> 8 ∧
    (xilinx_vdma_fb_setcolreg k regno red green blue transp fbi palette).2 regno
      % 256 = ((77 * red + 151 * green + 28 * blue + 127) >>> 8) >>> 8 ∧
    (xilinx_vdma_fb_setcolreg k regno red green blue transp fbi palette).2 regno >>> 24
      = 0 := by
  have hsum : u32 (u32 (u32 (u32 (red * 77) + u32 (green * 151)) + u32 (blue * 28)) + 127)
      = 77 * red + 151 * green + 28 * blue + 127 := by
    unfold u32
    omega
  have hL : ((77 * red + 151 * green + 28 * blue + 127) >>> 8) >>> 8 < 256 := by
    simp only [Nat.shiftRight_eq_div_pow]
    omega
  rw [setcolreg_grayscale k regno red green blue transp fbi palette hregno hgray hbound]
  simp only [Function.update_same, hsum, pack_rgb_eq _ _ _ hL hL hL]
  refine ⟨by omega, ?_, trivial, ?_⟩
  · simp only [Nat.shiftRight_eq_div_pow]
    omega
  · generalize ((77 * red + 151 * green + 28 * blue + 127) >>> 8) >>> 8 = y at hL ⊢
    simp only [Nat.shiftRight_eq_div_pow, Nat.reducePow]
    have h16 : (y * 65536 + y * 256 + y) / 65536 = y :=
      Nat.div_eq_of_lt_le (by omega) (by omega)
    have h8 : (y * 65536 + y * 256 + y) / 256 = y * 256 + y :=
      Nat.div_eq_of_lt_le (by omega) (by omega)
    have h24 : (y * 65536 + y * 256 + y) / 16777216 = 0 :=
      Nat.div_eq_of_lt (by omega)
    rw [h16, h8, h24]
    refine ⟨by omega, by omega, by omega, rfl⟩

theorem C9_setcolreg_grayscale_witness :
    77 * 0x1234 + 151 * 0xABCD + 28 * 0xFFFF + 127 < 2 ^ 32 ∧
    (77 * 0x1234 + 151 * 0xABCD + 28 * 0xFFFF + 127) >>> 8 ≤ 0xFFFF ∧
    (xilinx_vdma_fb_setcolreg kernel_arm 5 0x1234 0xABCD 0xFFFF 9 fbi_grayscale
      (fun _ => 0)).1 = .ret 0 ∧
    ((xilinx_vdma_fb_setcolreg kernel_arm 5 0x1234 0xABCD 0xFFFF 9 fbi_grayscale
      (fun _ => 0)).2 5 >>> 16)
      % 256 = ((77 * 0x1234 + 151 * 0xABCD + 28 * 0xFFFF + 127) >>> 8) >>> 8 ∧
    ((xilinx_vdma_fb_setcolreg kernel_arm 5 0x1234 0xABCD 0xFFFF 9 fbi_grayscale
      (fun _ => 0)).2 5 >>> 8)
      % 256 = ((77 * 0x1234 + 151 * 0xABCD + 28 * 0xFFFF + 127) >>> 8) >>> 8 ∧
    (xilinx_vdma_fb_setcolreg kernel_arm 5 0x1234 0xABCD 0xFFFF 9 fbi_grayscale
      (fun _ => 0)).2 5
      % 256 = ((77 * 0x1234 + 151 * 0xABCD + 28 * 0xFFFF + 127) >>> 8) >>> 8 ∧
    (xilinx_vdma_fb_setcolreg kernel_arm 5 0x1234 0xABCD 0xFFFF 9 fbi_grayscale
      (fun _ => 0)).2 5 >>> 24 = 0 :=
  C9_setcolreg_grayscale kernel_arm 5 0x1234 0xABCD 0xFFFF 9 fbi_grayscale (fun _ => 0)
    (by decide) (by decide) (by decide) (by decide) (by decide) rfl

/-- C10 at the failing input `regno = 16`: the routine accepts the register number
(16 < 256, result 0) and writes `0x00FFFFFF` at word offset 16 from the pointer that
`framebuffer_init` bound to the array `pseudo_palette`, while the array has only
`PSEUDO_PALETTE_LEN = 16` elements, so offset 16 is not an index of it. -/
theorem C10_setcolreg_regno_16_outside_array :
    16 < PALETTE_ENTRIES_NO ∧
    fbi_registered.pseudo_palette = .drvdata_pseudo_palette ∧
    (xilinx_vdma_fb_setcolreg kernel_arm 16 0xFFFF 0xFFFF 0xFFFF 0 fbi_registered
      (fun _ => 0)).1 = .ret 0 ∧
    (xilinx_vdma_fb_setcolreg kernel_arm 16 0xFFFF 0xFFFF 0xFFFF 0 fbi_registered
      (fun _ => 0)).2 16 = 0x00FFFFFF ∧
    ¬ 16 < PSEUDO_PALETTE_LEN := by
  refine ⟨by decide, rfl, rfl, ?_, by decide⟩
  decide

/-! ## Probe and remove -/

/-- C2 at the failing input (`devm_clk_get` hands back an error pointer, every other
collaborator succeeds): `dynclk_init` fails with -1, yet `xilinx_vdma_fb_probe` goes on
to run `xvtc_init`, `vdma_init` and `framebuffer_init` in full and returns 0. -/
theorem C2_probe_continues_after_clock_failure :
    (dynclk_init env_clk_fail world_probing).1 = .ret (-1) ∧
    (xilinx_vdma_fb_probe env_clk_fail World.init).1 = .ret 0 ∧
    (xilinx_vdma_fb_probe env_clk_fail World.init).2.calls =
      [Call.devm_kzalloc, Call.platform_set_drvdata,
       Call.devm_clk_get,
       Call.xvtc_of_get, Call.xvtc_generator_start 2 config_1080p,
       Call.dma_request_slave_channel,
       Call.xilinx_vdma_channel_set_config 3
         { coalesc := 0, park := 1, park_frm := 0, delay := 0 },
       Call.dma_alloc_coherent 8294400, Call.memset_io 0x1000 0x41 8294400,
       Call.dmaengine_terminate_all 3,
       Call.dmaengine_prep_interleaved_dma 3 tmplt_1080p,
       Call.dmaengine_submit (some 4), Call.dma_async_issue_pending 3,
       Call.fb_alloc_cmap 256 0, Call.register_framebuffer] := by
  refine ⟨rfl, rfl, ?_⟩
  decide

/-- C3 fails as stated: after a bring-up in which everything succeeded, the calls that
`xilinx_vdma_fb_remove` adds to the log free the frame buffer and contain no
`dmaengine_terminate_all`; in the whole log nothing after the arming call
`dma_async_issue_pending` is a disarm. -/
theorem C3_counterexample :
    (xilinx_vdma_fb_probe env_ok World.init).1 = .ret 0 ∧
    (xilinx_vdma_fb_remove env_ok (xilinx_vdma_fb_probe env_ok World.init).2).2.calls =
      (xilinx_vdma_fb_probe env_ok World.init).2.calls ++
        [Call.unregister_framebuffer, Call.fb_dealloc_cmap,
         Call.dma_free_coherent 8294400 (some 0x1000) 0x30000000,
         Call.dma_release_channel (some 3)] ∧
    disarm_before_free
        [Call.unregister_framebuffer, Call.fb_dealloc_cmap,
         Call.dma_free_coherent 8294400 (some 0x1000) 0x30000000,
         Call.dma_release_channel (some 3)] = false ∧
    (xilinx_vdma_fb_remove env_ok (xilinx_vdma_fb_probe env_ok World.init).2).2.calls.get? 16
      = some (Call.dma_async_issue_pending 3) ∧
    disarm_before_free
      ((xilinx_vdma_fb_remove env_ok
        (xilinx_vdma_fb_probe env_ok World.init).2).2.calls.drop 17) = false := by
  refine ⟨rfl, ?_, ?_, ?_, ?_⟩ <;> decide

/-- C3, amended: in every teardown performed by `xilinx_vdma_fb_remove` the calls are, in
this order, `unregister_framebuffer`, `fb_dealloc_cmap`, `dma_free_coherent` of the frame
buffer and `dma_release_channel`, and the result is 0: the frame buffer is freed strictly
before the DMA channel is released, and no `dmaengine_terminate_all` is issued. -/
theorem C3_remove_call_sequence (env : Env) (w : World) (d : xilinx_vdma_fb_drvdata)
    (hw : w.drvdata = some d) :
    (xilinx_vdma_fb_remove env w).1 = .ret 0 ∧
    (xilinx_vdma_fb_remove env w).2.calls =
      w.calls ++
        [Call.unregister_framebuffer, Call.fb_dealloc_cmap,
         Call.dma_free_coherent (PAGE_ALIGN env.k 8294400) d.fb_virtual d.fb_phy,
         Call.dma_release_channel d.mm2s_dma_chan] ∧
    (∀ c ∈ [Call.unregister_framebuffer, Call.fb_dealloc_cmap,
         Call.dma_free_coherent (PAGE_ALIGN env.k 8294400) d.fb_virtual d.fb_phy,
         Call.dma_release_channel d.mm2s_dma_chan], c.isDisarm = false) := by
  refine ⟨?_, ?_, ?_⟩
  · unfold xilinx_vdma_fb_remove
    rw [hw]
  · unfold xilinx_vdma_fb_remove
    rw [hw]
    simp [World.call, xilinx_vdma_fb_default_conf, BITS_PER_PIXEL, u32]
  · simp [Call.isDisarm]

theorem C3_remove_call_sequence_witness :
    (xilinx_vdma_fb_remove env_ok (xilinx_vdma_fb_probe env_ok World.init).2).1 = .ret 0 ∧
    (xilinx_vdma_fb_remove env_ok (xilinx_vdma_fb_probe env_ok World.init).2).2.calls =
      (xilinx_vdma_fb_probe env_ok World.init).2.calls ++
        [Call.unregister_framebuffer, Call.fb_dealloc_cmap,
         Call.dma_free_coherent (PAGE_ALIGN env_ok.k 8294400) (some 0x1000) 0x30000000,
         Call.dma_release_channel (some 3)] ∧
    (∀ c ∈ [Call.unregister_framebuffer, Call.fb_dealloc_cmap,
         Call.dma_free_coherent (PAGE_ALIGN env_ok.k 8294400) (some 0x1000) 0x30000000,
         Call.dma_release_channel (some 3)], c.isDisarm = false) :=
  C3_remove_call_sequence env_ok (xilinx_vdma_fb_probe env_ok World.init).2
    { drvdata_zero with
      info := fbi_registered
      mm2s_dma_chan := some 3
      vdma_config := { coalesc := 0, park := 1, park_frm := 0, delay := 0 }
      fb_virtual := some 0x1000
      fb_phy := 0x30000000
      fb_conf := xilinx_vdma_fb_default_conf
      dyn_clk := some 1
      vtc_config := config_1080p
      vtc_device := some 2 }
    (by decide)

/-- C4 fails as stated: when the clock and timing stages succeed and `dma_alloc_coherent`
returns NULL, `vdma_init` fails with -1 and the call sequence of `xilinx_vdma_fb_probe`
contains neither a release of the clock nor a stop of the timing generator. -/
theorem C4_counterexample :
    (dynclk_init env_alloc_fail world_probing).1 = .ret 0 ∧
    (xvtc_init env_alloc_fail (dynclk_init env_alloc_fail world_probing).2).1 = .ret 0 ∧
    (vdma_init env_alloc_fail
      (xvtc_init env_alloc_fail (dynclk_init env_alloc_fail world_probing).2).2).1
      = .ret (-1) ∧
    (xilinx_vdma_fb_probe env_alloc_fail World.init).2.calls =
      [Call.devm_kzalloc, Call.platform_set_drvdata,
       Call.devm_clk_get, Call.clk_prepare_enable 1, Call.clk_get_rate 1,
       Call.clk_round_rate 1 148500000, Call.clk_set_rate 1 148500000,
       Call.xvtc_of_get, Call.xvtc_generator_start 2 config_1080p,
       Call.dma_request_slave_channel,
       Call.xilinx_vdma_channel_set_config 3
         { coalesc := 0, park := 1, park_frm := 0, delay := 0 },
       Call.dma_alloc_coherent 8294400,
       Call.fb_alloc_cmap 256 0, Call.register_framebuffer] ∧
    (xilinx_vdma_fb_probe env_alloc_fail World.init).2.calls.any Call.isClockRelease
      = false ∧
    (xilinx_vdma_fb_probe env_alloc_fail World.init).2.calls.any Call.isTimingStop
      = false := by
  refine ⟨rfl, rfl, rfl, ?_, ?_, ?_⟩ <;> decide

/-- C4, amended: when the clock and timing stages have succeeded and the frame-buffer
allocation in `vdma_init` fails (`dma_alloc_coherent` returns NULL), the call sequence of
`xilinx_vdma_fb_probe` contains no disarm (`dmaengine_terminate_all`) of the never-armed
channel; it contains no release of the clock and no stop of the timing generator
either. -/
theorem C4_probe_alloc_failure_calls (env : Env) (clk xvtc chan : Nat)
    (hk : env.devm_kzalloc = true)
    (hclk : env.devm_clk_get = some clk) (hprep : env.clk_prepare_enable = 0)
    (hrate : env.clk_set_rate = 0) (hxvtc : env.xvtc_of_get = some xvtc)
    (hchan : env.dma_request_slave_channel = some chan)
    (hcfg : env.xilinx_vdma_channel_set_config = 0)
    (halloc : env.dma_alloc_coherent = none) :
    (xilinx_vdma_fb_probe env World.init).2.calls.any Call.isDisarm = false ∧
    (xilinx_vdma_fb_probe env World.init).2.calls.any Call.isClockRelease = false ∧
    (xilinx_vdma_fb_probe env World.init).2.calls.any Call.isTimingStop = false := by
  unfold xilinx_vdma_fb_probe dynclk_init xvtc_init vdma_init framebuffer_init
  simp only [hk, hclk, hprep, hrate, hxvtc, hchan, hcfg, halloc, World.call, World.set,
    World.init, Bool.not_true, Bool.false_eq_true, if_false, ne_eq, not_true_eq_false]
  split_ifs <;> simp [Call.isDisarm, Call.isClockRelease, Call.isTimingStop]

theorem C4_probe_alloc_failure_calls_witness :
    (xilinx_vdma_fb_probe env_alloc_fail World.init).2.calls.any Call.isDisarm = false ∧
    (xilinx_vdma_fb_probe env_alloc_fail World.init).2.calls.any Call.isClockRelease
      = false ∧
    (xilinx_vdma_fb_probe env_alloc_fail World.init).2.calls.any Call.isTimingStop
      = false :=
  C4_probe_alloc_failure_calls env_alloc_fail 1 2 3 rfl rfl rfl rfl rfl rfl rfl rfl

end XilinxVdmaFb
